import Mathlib

/-!
Verification of the Helio email-service ingestion pipeline.

The development shallowly embeds the pipeline of
`packages/src/email_service/email_service/background_process.py`
(`sync_emails`), the classification gateway
`email_service/email_classifier.py` (`email_agent`), the mail connector
`email_service/email_connector_updated.py` (`EmailConnector`,
`get_new_emails`) and the persistent model
`email_service/models.py` (`EmailRecord`, unique `message_id`).

External effects are made explicit parameters:
* the outcome of the Gemini `generate_content` call (`GenaiOutcome`),
* the environment variable `GEMINI_API_KEY` (`Option String`),
* the Gmail fetch outcome (`Except Unit (List InboundMessage)`;
  `Except.error` models an `HttpError` raised inside `get_new_emails`),
* the stdlib parser `parsedate_to_datetime` (a function
  `String → Option Nat`, `none` modelling a raised exception),
* the SQLAlchemy session, as the list of committed rows (the session is
  created with `autoflush := false`, so queries issued during the loop see
  only committed rows, never rows that are merely `add`ed).
-/

/-- Dictionary produced by `EmailConnector.get_message_details`: keys
`id`, `subject`, `from`, `to`, `date`, `body`, `has_attachments`
(`labels` is never read by the sync loop and is omitted).  `date` is an
`Option` so that `msg.get("date", None)` in `sync_emails` is modelled
exactly; the empty string is Python-falsy and is treated below like an
absent date. -/
structure InboundMessage where
  id : String
  subject : String
  from_ : String
  to_ : String
  date : Option String
  body : String
  has_attachments : Bool
deriving Repr, DecidableEq

/-- Pydantic schema `EmailAnalysisResult` of `email_classifier.py`.  The
score fields are plain `int`s: the `Field` descriptions mention the range
1–5 but no `ge`/`le` validator is attached, so any integer is accepted. -/
structure EmailAnalysisResult where
  category : String
  importance_score : Int
  urgency_score : Int
  summary : String
  intent : String
deriving Repr, DecidableEq

/-- The hard-coded fallback dictionary built in the `except` branch of
`email_agent`. -/
def fallbackResult : EmailAnalysisResult :=
  { category := "Uncategorized"
    importance_score := 1
    urgency_score := 1
    summary := "Error in AI processing"
    intent := "Unknown" }

/-- Outcome of the external `client.models.generate_content` call:
either a parsed `EmailAnalysisResult` (`response.parsed`) or a raised
exception carrying a message. -/
inductive GenaiOutcome where
  | parsed (r : EmailAnalysisResult)
  | failure (msg : String)
deriving Repr, DecidableEq

/-- What `email_agent` hands back to its caller on success.  The Python
function returns either the pydantic object `response.parsed` (which has
a `.dict` method) or, in the `except` branch, a plain `dict` (which has
no `.dict` attribute).  The distinction matters to the caller in
`background_process.py`, so it is kept in the embedding. -/
inductive AgentReturn where
  | parsedResult (r : EmailAnalysisResult)
  | fallbackDict (r : EmailAnalysisResult)
deriving Repr, DecidableEq

/-- Python truthiness of an optional string: `None` and `""` are falsy. -/
def truthy : Option String → Bool
  | none => false
  | some s => s ≠ ""

/-- Key resolution at the top of `email_agent`:
`if api_key is None: api_key = os.getenv("GEMINI_API_KEY")`. -/
def effectiveKey (api_key env_api_key : Option String) : Option String :=
  match api_key with
  | none => env_api_key
  | some k => some k

/-- `email_agent(email_content, sender_info, recent_context, model_id,
api_key)` from `email_classifier.py`.  `env_api_key` is the value of
`os.getenv("GEMINI_API_KEY")`; `call` is the outcome of the external
Gemini call.  The key check (`if not api_key: raise ValueError(...)`)
happens before the `try` block, so a missing or empty key is raised to
the caller (`Except.error`); only failures of the external call itself
are converted into the fallback dictionary. -/
def email_agent (env_api_key : Option String) (call : GenaiOutcome)
    (email_content sender_info recent_context : String)
    (api_key : Option String) : Except String AgentReturn :=
  if truthy (effectiveKey api_key env_api_key) then
    match call with
    | GenaiOutcome.parsed r => Except.ok (AgentReturn.parsedResult r)
    | GenaiOutcome.failure _ => Except.ok (AgentReturn.fallbackDict fallbackResult)
  else
    Except.error "GEMINI_API_KEY environment variable not set."

/-- Row of the `emails` table (`models.py`, class `EmailRecord`).
`message_id` carries a uniqueness constraint.  `date_sent` is a nullable
`DateTime`, abstracted to `Option Nat`.  `labels`, `intention` and
`iu_score` are the nullable columns filled from `ai_out.get(...)` in
`sync_emails`. -/
structure EmailRecord where
  message_id : String
  from_email : String
  to_email : String
  subject : String
  body : String
  date_sent : Option Nat
  is_read : Bool
  has_attachments : Bool
  labels : Option String
  intention : Option String
  iu_score : Option Int
deriving Repr, DecidableEq

/-- The committed rows of the `emails` table. -/
abbrev Store := List EmailRecord

/-- The existence query of the deduplication gate:
`db.query(EmailRecord).filter(EmailRecord.message_id == message_id).first()`
is truthy iff some committed row has this `message_id` (the session has
`autoflush=False`, so pending `add`s are invisible to it). -/
def storeHas (s : Store) (msg_id : String) : Bool :=
  s.any (fun r => r.message_id = msg_id)

/-- `ai_out` as computed by `sync_emails`:
`agent_response.dict() if hasattr(agent_response, "dict") else {}`,
with the whole `email_agent` call wrapped in `try/except` setting
`ai_out = {}`.  A pydantic result has a `.dict` method; the fallback
`dict` does not (`hasattr({}, "dict")` is `False`), so the fallback
metadata is replaced by the empty dictionary. -/
def aiOut : Except String AgentReturn → Option EmailAnalysisResult
  | Except.ok (AgentReturn.parsedResult r) => some r
  | Except.ok (AgentReturn.fallbackDict _) => none
  | Except.error _ => none

/-- Date handling of `sync_emails`: `raw_date = msg.get("date", None)`;
when truthy it is parsed with `parsedate_to_datetime`, any exception
yielding `None`; otherwise `parsed_date = None`. -/
def parsedDate (parse : String → Option Nat) (msg : InboundMessage) : Option Nat :=
  match msg.date with
  | none => none
  | some d => if d = "" then none else parse d

/-- The `EmailRecord(...)` constructor call in `sync_emails`:
`labels`, `intention` and `iu_score` are `ai_out.get("category")`,
`ai_out.get("intent")` and `ai_out.get("importance_score")`, which are
`None` whenever `ai_out` is the empty dictionary. -/
def buildRecord (parse : String → Option Nat) (msg : InboundMessage)
    (ai : Option EmailAnalysisResult) : EmailRecord :=
  { message_id := msg.id
    from_email := msg.from_
    to_email := msg.to_
    subject := msg.subject
    body := msg.body
    date_sent := parsedDate parse msg
    is_read := false
    has_attachments := msg.has_attachments
    labels := ai.map (fun r => r.category)
    intention := ai.map (fun r => r.intent)
    iu_score := ai.map (fun r => r.importance_score) }

/-- Result of the per-message loop of `sync_emails`: the rows passed to
`db.add` (in loop order, none of them flushed yet because the session has
`autoflush=False`), and the final values of the local counters
`inserted` and `skipped`. -/
structure LoopOut where
  pending : List EmailRecord
  inserted : Nat
  skipped : Nat
deriving Repr, DecidableEq

/-- The `for msg in emails` loop of `sync_emails` (lines 33–78): one
existence check per candidate against the committed store; duplicates
bump `skipped`; survivors are classified (`classify msg` is the outcome
of the `email_agent` call for that message), built into a row and
`db.add`ed. -/
def syncLoop (parse : String → Option Nat)
    (classify : InboundMessage → Except String AgentReturn)
    (db : Store) : List InboundMessage → LoopOut
  | [] => ⟨[], 0, 0⟩
  | msg :: rest =>
    if storeHas db msg.id then
      let r := syncLoop parse classify db rest
      ⟨r.pending, r.inserted, r.skipped + 1⟩
    else
      let r := syncLoop parse classify db rest
      ⟨buildRecord parse msg (aiOut (classify msg)) :: r.pending,
        r.inserted + 1, r.skipped⟩

/-- `EmailConnector.get_new_emails` (`email_connector_updated.py`,
lines 90–125): on success it returns the assembled message
dictionaries; an `HttpError` from the Gmail API is caught, logged and
turned into the empty list. -/
def get_new_emails (fetch : Except Unit (List InboundMessage)) : List InboundMessage :=
  match fetch with
  | Except.ok msgs => msgs
  | Except.error _ => []

/-- Whether `db.commit()` succeeds: the committed table already
satisfies the uniqueness constraint on `message_id`, so the batch of
`INSERT`s succeeds iff the pending rows have pairwise distinct
`message_id`s, none of which is already committed.  Otherwise the
database raises an integrity error. -/
def commitOk (db pending : Store) : Bool :=
  decide (pending.map (fun r => r.message_id)).Nodup &&
    pending.all (fun r => !storeHas db r.message_id)

/-- Outcome of a run, as logged by `sync_emails`: `ok` for the
`"Sync complete"` log line, `failed` for the `except` branch
(`db.rollback()` plus the `"Sync failed"` log line). -/
inductive SyncStatus where
  | ok
  | failed
deriving Repr, DecidableEq

/-- Observable outcome of one run of the pipeline body: the committed
store afterwards, `len(emails)`, the two counters, and the status. -/
structure SyncResult where
  store : Store
  fetched : Nat
  inserted : Nat
  skipped : Nat
  status : SyncStatus
deriving Repr, DecidableEq

/-- Body of `sync_emails` from the fetch call onward
(`background_process.py`, lines 24–88): fetch via `get_new_emails`, run
the dedup/classify/build loop, then `db.commit()`.  A failed commit
raises, is caught by the `except Exception` branch and rolled back, so
the committed store is unchanged and the run is logged as failed. -/
def syncPipeline (parse : String → Option Nat)
    (classify : InboundMessage → Except String AgentReturn)
    (fetch : Except Unit (List InboundMessage)) (db : Store) : SyncResult :=
  let emails := get_new_emails fetch
  let r := syncLoop parse classify db emails
  if commitOk db r.pending then
    ⟨db ++ r.pending, emails.length, r.inserted, r.skipped, SyncStatus.ok⟩
  else
    ⟨db, emails.length, r.inserted, r.skipped, SyncStatus.failed⟩

/-- The classification call exactly as `sync_emails` issues it:
`email_agent(email_content=msg["body"], sender_info=msg["from"])`, with
`recent_context` and `api_key` left at their defaults. -/
def syncClassifier (env_api_key : Option String)
    (outcome : InboundMessage → GenaiOutcome)
    (msg : InboundMessage) : Except String AgentReturn :=
  email_agent env_api_key (outcome msg) msg.body msg.from_ "" none

/-- Names of the methods defined by class `EmailConnector` in
`email_connector_updated.py` (the module imported by
`background_process.py`).  Python resolves `connector.connect()` by
attribute lookup against this set and raises `AttributeError` when the
name is absent. -/
def emailConnectorMethods : List String :=
  ["__init__", "_authenticate_gmail", "get_new_emails",
   "get_message_details", "_get_header", "_get_email_body",
   "_strip_html", "_has_attachments", "extract_attachments",
   "mark_as_read", "send_email", "reply_to_email", "search_emails"]

/-- Exceptions that may escape `sync_emails` itself. -/
inductive PyError where
  | attributeError (name : String)
  | constructionError (msg : String)
deriving Repr, DecidableEq

/-- The whole scheduled routine `sync_emails` (`background_process.py`,
lines 15–88).  `constructOk` is whether `EmailConnector.__init__`
(OAuth authentication) succeeds.  After construction the routine calls
`connector.connect()` (line 23) — an attribute lookup against
`emailConnectorMethods` — before any fetch; only then does the body run.
Exceptions before the `try` block (line 29) propagate to the scheduler
and leave the store untouched. -/
def sync_emails (constructOk : Bool) (parse : String → Option Nat)
    (classify : InboundMessage → Except String AgentReturn)
    (fetch : Except Unit (List InboundMessage)) (db : Store) :
    Except PyError SyncResult :=
  if constructOk then
    if emailConnectorMethods.contains "connect" then
      Except.ok (syncPipeline parse classify fetch db)
    else
      Except.error (PyError.attributeError "connect")
  else
    Except.error (PyError.constructionError "authentication failed")

/-- Committed store after a call of `sync_emails`: an exception thrown
before or during the run leaves the previously committed rows as they
were. -/
def storeAfter (db : Store) : Except PyError SyncResult → Store
  | Except.ok r => r.store
  | Except.error _ => db

/-! ### Basic lemmas about the embedded operations -/

/-- The existence check succeeds exactly when the identifier occurs among
the committed `message_id` column values. -/
lemma storeHas_iff (s : Store) (i : String) :
    storeHas s i = true ↔ i ∈ s.map (fun r => r.message_id) := by
  simp [storeHas, List.any_eq_true, List.mem_map]

/-- Existence checks distribute over concatenated stores. -/
lemma storeHas_append (a b : Store) (i : String) :
    storeHas (a ++ b) i = (storeHas a i || storeHas b i) := by
  simp [storeHas, List.any_append]

/-- Existence check on a cons cell. -/
lemma storeHas_cons (r : EmailRecord) (s : Store) (i : String) :
    storeHas (r :: s) i = (decide (r.message_id = i) || storeHas s i) := by
  simp [storeHas]

/-- Characterisation of a successful commit. -/
lemma commitOk_iff (db pending : Store) :
    commitOk db pending = true ↔
      (pending.map (fun r => r.message_id)).Nodup ∧
        ∀ r ∈ pending, storeHas db r.message_id = false := by
  simp [commitOk, List.all_eq_true]

/-- Committing an empty batch always succeeds. -/
lemma commitOk_nil (db : Store) : commitOk db [] = true := by
  simp [commitOk]

/-- Every row staged by the loop passed its existence check: its
`message_id` was absent from the committed store. -/
lemma syncLoop_pending_fresh (parse : String → Option Nat)
    (classify : InboundMessage → Except String AgentReturn) (db : Store) :
    ∀ msgs : List InboundMessage,
      ∀ rec ∈ (syncLoop parse classify db msgs).pending,
        storeHas db rec.message_id = false
  | [] => by simp [syncLoop]
  | msg :: rest => by
    intro rec hrec
    by_cases h : storeHas db msg.id = true
    · simp only [syncLoop, h, if_true] at hrec
      exact syncLoop_pending_fresh parse classify db rest rec hrec
    · simp only [syncLoop, h, if_false, Bool.not_eq_true] at hrec ⊢
      rcases List.mem_cons.mp hrec with hEq | hMem
      · subst hEq
        simpa [buildRecord] using Bool.not_eq_true _ ▸ h
      · exact syncLoop_pending_fresh parse classify db rest rec hMem

/-- After the loop, every fetched message's identifier occurs either in
the committed store or among the staged rows. -/
lemma syncLoop_covers (parse : String → Option Nat)
    (classify : InboundMessage → Except String AgentReturn) (db : Store) :
    ∀ msgs : List InboundMessage, ∀ msg ∈ msgs,
      storeHas (db ++ (syncLoop parse classify db msgs).pending) msg.id = true
  | [] => by simp
  | m :: rest => by
    intro msg hmsg
    rcases List.mem_cons.mp hmsg with hEq | hMem
    · subst hEq
      by_cases h : storeHas db msg.id = true
      · simp [syncLoop, h, storeHas_append]
      · simp [syncLoop, h, storeHas_append, storeHas_cons, buildRecord]
    · have ih := syncLoop_covers parse classify db rest msg hMem
      rw [storeHas_append] at ih
      by_cases h : storeHas db m.id = true
      · simpa [syncLoop, h, storeHas_append] using ih
      · simp only [syncLoop, h, if_false, Bool.not_eq_true]
        simpa [storeHas_append, storeHas_cons] using
          Or.imp_right Or.inr (Bool.or_eq_true _ _ |>.mp ih)

/-- When every candidate is already present in the committed store, the
loop stages nothing, inserts nothing and skips everything. -/
lemma syncLoop_all_dup (parse : String → Option Nat)
    (classify : InboundMessage → Except String AgentReturn) (db : Store) :
    ∀ msgs : List InboundMessage,
      (∀ msg ∈ msgs, storeHas db msg.id = true) →
      syncLoop parse classify db msgs = ⟨[], 0, msgs.length⟩
  | [] => by intro _; simp [syncLoop]
  | m :: rest => by
    intro h
    have hm : storeHas db m.id = true := h m (List.mem_cons_self m rest)
    have := syncLoop_all_dup parse classify db rest
      (fun msg hmsg => h msg (List.mem_cons_of_mem m hmsg))
    simp [syncLoop, hm, this]

/-- A non-duplicate fetched message always has its constructed row among
the staged rows, whatever its classification outcome. -/
lemma syncLoop_mem_pending (parse : String → Option Nat)
    (classify : InboundMessage → Except String AgentReturn) (db : Store) :
    ∀ msgs : List InboundMessage, ∀ msg ∈ msgs,
      storeHas db msg.id = false →
      buildRecord parse msg (aiOut (classify msg)) ∈
        (syncLoop parse classify db msgs).pending
  | [] => by simp
  | m :: rest => by
    intro msg hmsg hfresh
    rcases List.mem_cons.mp hmsg with hEq | hMem
    · subst hEq
      simp [syncLoop, hfresh]
    · have ih := syncLoop_mem_pending parse classify db rest msg hMem hfresh
      by_cases h : storeHas db m.id = true
      · simpa [syncLoop, h] using ih
      · simp only [syncLoop, h, if_false, Bool.not_eq_true]
        exact List.mem_cons_of_mem _ ih

/-- The status of a pipeline run records exactly whether the commit
succeeded. -/
lemma syncPipeline_status_iff (parse : String → Option Nat)
    (classify : InboundMessage → Except String AgentReturn)
    (fetch : Except Unit (List InboundMessage)) (db : Store) :
    (syncPipeline parse classify fetch db).status = SyncStatus.ok ↔
      commitOk db (syncLoop parse classify db (get_new_emails fetch)).pending
        = true := by
  by_cases h :
      commitOk db (syncLoop parse classify db (get_new_emails fetch)).pending
        = true
  · simp [syncPipeline, h]
  · simp [syncPipeline, h]

/-- Store shape after a run whose commit succeeded. -/
lemma syncPipeline_store_of_ok (parse : String → Option Nat)
    (classify : InboundMessage → Except String AgentReturn)
    (fetch : Except Unit (List InboundMessage)) (db : Store)
    (h : (syncPipeline parse classify fetch db).status = SyncStatus.ok) :
    (syncPipeline parse classify fetch db).store =
      db ++ (syncLoop parse classify db (get_new_emails fetch)).pending := by
  have hc := (syncPipeline_status_iff parse classify fetch db).mp h
  simp [syncPipeline, hc]

/-- Store shape after a run whose commit failed. -/
lemma syncPipeline_store_of_failed (parse : String → Option Nat)
    (classify : InboundMessage → Except String AgentReturn)
    (fetch : Except Unit (List InboundMessage)) (db : Store)
    (h : (syncPipeline parse classify fetch db).status = SyncStatus.failed) :
    (syncPipeline parse classify fetch db).store = db := by
  by_cases hc :
      commitOk db (syncLoop parse classify db (get_new_emails fetch)).pending
        = true
  · simp [syncPipeline, hc] at h
  · simp [syncPipeline, hc]

/-! ### Concrete fixtures -/

/-- A date parser for which every raw date string is unparseable. -/
def parseNone : String → Option Nat := fun _ => none

/-- A classification step that raises on every call (e.g. the
`ValueError` thrown by `email_agent` when `GEMINI_API_KEY` is unset). -/
def classifyRaise : InboundMessage → Except String AgentReturn :=
  fun _ => Except.error "GEMINI_API_KEY environment variable not set."

/-- A fetched message with identifier "a" and a well-formed date. -/
def msgA : InboundMessage :=
  ⟨"a", "subject one", "x@example.com", "y@example.com",
    some "Mon, 06 Oct 2025 10:00:00 +0000", "hello", false⟩

/-- A second fetched message carrying the same identifier "a". -/
def msgA2 : InboundMessage :=
  ⟨"a", "subject two", "x@example.com", "y@example.com", none, "world", true⟩

/-- A fetched message whose raw date string does not parse. -/
def msgB : InboundMessage :=
  ⟨"b", "subject b", "x@example.com", "y@example.com",
    some "not-a-date", "body b", false⟩

/-- An external-call result whose scores lie outside the 1–5 range. -/
def outOfRangeResult : EmailAnalysisResult :=
  { category := "Work"
    importance_score := 7
    urgency_score := 9
    summary := "an email"
    intent := "FYI" }

/-- Number of committed rows carrying a given provider identifier. -/
def countId (s : Store) (i : String) : Nat :=
  (s.filter (fun r => r.message_id = i)).length

/-- Whether every persisted importance/urgency composite score lies in
the 1–5 range (null scores are vacuously in range). -/
def storedScoresInRange (s : Store) : Bool :=
  s.all (fun rec =>
    match rec.iu_score with
    | some k => decide (1 ≤ k ∧ k ≤ 5)
    | none => true)

/-- Counting rows by identifier agrees with counting the identifier in
the `message_id` column. -/
lemma countId_eq_count (s : Store) (i : String) :
    countId s i = (s.map (fun r => r.message_id)).count i := by
  induction s with
  | nil => rfl
  | cons r t ih =>
    by_cases h : r.message_id = i <;>
      simp [countId, List.count_cons, h, ← ih, List.filter_cons]

/-- A table whose `message_id` column is duplicate-free holds at most
one row per identifier. -/
lemma countId_le_one (s : Store) (i : String)
    (h : (s.map (fun r => r.message_id)).Nodup) : countId s i ≤ 1 := by
  rw [countId_eq_count]
  exact List.nodup_iff_count_le_one.mp h i

/-! ### Claims -/

/-- C1 (code bug).  When classification fails for every message, the
fetched non-duplicate message is still persisted, but with null
metadata, not the documented fallback: `email_agent` does return the
fully populated fallback dictionary (first conjunct), yet `sync_emails`
computes `ai_out = agent_response.dict() if hasattr(agent_response,
"dict") else {}` and a plain `dict` has no `.dict` attribute, so the
fallback is discarded and the stored row carries `labels = none`,
`intention = none`, `iu_score = none` instead of
category "Uncategorized", importance 1, urgency 1, intent "Unknown"
(second conjunct). -/
theorem classification_failure_persists_null_metadata :
    email_agent (some "key") (GenaiOutcome.failure "quota") msgA.body msgA.from_ "" none
      = Except.ok (AgentReturn.fallbackDict fallbackResult) ∧
    syncPipeline (fun _ => some 100)
        (syncClassifier (some "key") (fun _ => GenaiOutcome.failure "quota"))
        (Except.ok [msgA]) []
      = ⟨[⟨"a", "x@example.com", "y@example.com", "subject one", "hello",
            some 100, false, false, none, none, none⟩],
          1, 1, 0, SyncStatus.ok⟩ := by
  exact ⟨rfl, rfl⟩

/-- C2 (counterexample).  With `api_key = None` and `GEMINI_API_KEY`
unset, `email_agent` raises `ValueError` to its caller — the missing
credential is not converted into the fallback result, because the key
check precedes the `try` block. -/
theorem email_agent_missing_key_raises :
    email_agent none (GenaiOutcome.failure "timeout") "body" "sender" "" none
      = Except.error "GEMINI_API_KEY environment variable not set." := rfl

/-- C2 (amended).  Whenever an API key is actually available (passed in,
or found non-empty in the environment), `email_agent` never raises: any
failure of the underlying external call is caught internally and
converted to the fully populated deterministic fallback (category
"Uncategorized", importance 1, urgency 1, intent "Unknown", summary
describing the error).  A missing or empty key instead raises
`ValueError`. -/
theorem email_agent_failure_returns_fallback
    (env api : Option String) (err content sender ctx : String)
    (h : truthy (effectiveKey api env) = true) :
    email_agent env (GenaiOutcome.failure err) content sender ctx api
      = Except.ok (AgentReturn.fallbackDict fallbackResult) ∧
    fallbackResult.category = "Uncategorized" ∧
    fallbackResult.importance_score = 1 ∧
    fallbackResult.urgency_score = 1 ∧
    fallbackResult.intent = "Unknown" ∧
    fallbackResult.summary = "Error in AI processing" := by
  refine ⟨?_, rfl, rfl, rfl, rfl, rfl⟩
  simp [email_agent, h]

/-- C2 witness: concrete instantiation with a key in the environment. -/
theorem email_agent_failure_returns_fallback_witness :
    truthy (effectiveKey none (some "k")) = true ∧
    email_agent (some "k") (GenaiOutcome.failure "timeout") "b" "s" "" none
      = Except.ok (AgentReturn.fallbackDict fallbackResult) :=
  ⟨rfl, (email_agent_failure_returns_fallback (some "k") none "timeout"
      "b" "s" "" rfl).1⟩

/-- C3.  `sync_emails` calls `connector.connect()` immediately after
constructing the connector; `EmailConnector` in
`email_connector_updated.py` defines no method named `connect`, so every
invocation that gets past construction raises `AttributeError` before
any fetch and the committed store is left unchanged: the scheduled
pipeline persists no records on any run. -/
theorem sync_emails_connect_attribute_error
    (parse : String → Option Nat)
    (classify : InboundMessage → Except String AgentReturn)
    (fetch : Except Unit (List InboundMessage)) (db : Store) :
    sync_emails true parse classify fetch db
      = Except.error (PyError.attributeError "connect") ∧
    storeAfter db (sync_emails true parse classify fetch db) = db := by
  have h : "connect" ∉ emailConnectorMethods := by decide
  exact ⟨by simp [sync_emails, h], by simp [sync_emails, h, storeAfter]⟩

/-- C4.  Atomic commit: if persisting the run's rows fails (the run ends
in the failed status — e.g. a uniqueness violation among the run's
candidate rows), the whole transaction is rolled back and the store
afterwards is exactly the previously committed store: zero of the run's
rows are visible and records from earlier runs are unaffected. -/
theorem sync_commit_atomic (parse : String → Option Nat)
    (classify : InboundMessage → Except String AgentReturn)
    (fetch : Except Unit (List InboundMessage)) (db : Store)
    (h : (syncPipeline parse classify fetch db).status = SyncStatus.failed) :
    (syncPipeline parse classify fetch db).store = db :=
  syncPipeline_store_of_failed parse classify fetch db h

/-- C4 witness: two candidates share identifier "a"; both pass the
existence check (the session sees only committed rows), the commit hits
the uniqueness constraint, and the store stays empty. -/
theorem sync_commit_atomic_witness :
    (syncPipeline parseNone classifyRaise (Except.ok [msgA, msgA2]) []).status
      = SyncStatus.failed ∧
    (syncPipeline parseNone classifyRaise (Except.ok [msgA, msgA2]) []).store
      = [] :=
  ⟨rfl, sync_commit_atomic parseNone classifyRaise
      (Except.ok [msgA, msgA2]) [] rfl⟩

/-- C5 (counterexample).  A run whose fetch fails with an adapter error
ends with the success status, not a failure status, and its outcome is
identical to the run on an empty fetch: callers cannot distinguish
"sync failed" from "nothing new". -/
theorem fetch_failure_reports_ok :
    (syncPipeline parseNone classifyRaise (Except.error ()) []).status
      = SyncStatus.ok ∧
    syncPipeline parseNone classifyRaise (Except.error ()) []
      = syncPipeline parseNone classifyRaise (Except.ok []) [] :=
  ⟨rfl, rfl⟩

/-- C5 (amended).  The run outcome always carries fetched, inserted and
skipped counts plus a status, but when the Mail Source Adapter fails
during fetch, `get_new_emails` catches the `HttpError` and returns the
empty list: the run completes with zero inserted, zero skipped, an
unchanged store and the SUCCESS status — exactly the outcome of an empty
fetch, so a failed fetch is not distinguishable from "nothing new". -/
theorem fetch_failure_indistinguishable (parse : String → Option Nat)
    (classify : InboundMessage → Except String AgentReturn) (db : Store) :
    syncPipeline parse classify (Except.error ()) db
      = ⟨db, 0, 0, 0, SyncStatus.ok⟩ ∧
    syncPipeline parse classify (Except.error ()) db
      = syncPipeline parse classify (Except.ok []) db := by
  constructor <;>
    simp [syncPipeline, get_new_emails, syncLoop, commitOk_nil]

/-- C6.  For every fetch batch — including batches containing several
messages with the same provider identifier — and every committed store
satisfying the uniqueness invariant, the store after the run still holds
at most one row per identifier, and every row the run staged for
insertion had passed an existence check against the committed store
(its identifier was absent).  When the existence check cannot see an
intra-batch duplicate (the session only sees committed rows), the
uniqueness constraint makes the commit fail and roll back, so the
invariant still holds. -/
theorem message_id_unique_invariant (parse : String → Option Nat)
    (classify : InboundMessage → Except String AgentReturn)
    (fetch : Except Unit (List InboundMessage)) (db : Store)
    (h : (db.map (fun r => r.message_id)).Nodup) :
    (∀ i, countId (syncPipeline parse classify fetch db).store i ≤ 1) ∧
    ∀ rec ∈ (syncLoop parse classify db (get_new_emails fetch)).pending,
      storeHas db rec.message_id = false := by
  refine ⟨?_, syncLoop_pending_fresh parse classify db _⟩
  intro i
  by_cases hc :
      commitOk db (syncLoop parse classify db (get_new_emails fetch)).pending
        = true
  · have hstore : (syncPipeline parse classify fetch db).store
        = db ++ (syncLoop parse classify db (get_new_emails fetch)).pending := by
      simp [syncPipeline, hc]
    rw [hstore]
    apply countId_le_one
    rw [List.map_append]
    rcases (commitOk_iff db _).mp hc with ⟨hnd, hfresh⟩
    refine List.Nodup.append h hnd ?_
    intro a ha hb
    rcases List.mem_map.mp hb with ⟨r, hr, hri⟩
    have hfr : storeHas db a = false := hri ▸ hfresh r hr
    rw [← Bool.not_eq_true, storeHas_iff] at hfr
    exact hfr ha
  · have hstore : (syncPipeline parse classify fetch db).store = db := by
      simp [syncPipeline, hc]
    rw [hstore]
    exact countId_le_one db i h

/-- C6 witness: a batch with a duplicated identifier against the empty
store still leaves at most one row with that identifier. -/
theorem message_id_unique_invariant_witness :
    countId
      (syncPipeline parseNone classifyRaise
        (Except.ok [msgA, msgA2]) []).store "a" ≤ 1 :=
  (message_id_unique_invariant parseNone classifyRaise
      (Except.ok [msgA, msgA2]) [] (by simp)).1 "a"

/-- C7.  Idempotency: if a run over a fetch batch commits successfully,
a second run over the same batch against the resulting store — whatever
the date parser and classifier do on that second run — inserts zero new
records, counts every candidate as skipped, leaves the store unchanged
and ends with the success status. -/
theorem sync_idempotent
    (parse parse2 : String → Option Nat)
    (classify classify2 : InboundMessage → Except String AgentReturn)
    (msgs : List InboundMessage) (db : Store)
    (h : (syncPipeline parse classify (Except.ok msgs) db).status
        = SyncStatus.ok) :
    syncPipeline parse2 classify2 (Except.ok msgs)
        (syncPipeline parse classify (Except.ok msgs) db).store
      = ⟨(syncPipeline parse classify (Except.ok msgs) db).store,
          msgs.length, 0, msgs.length, SyncStatus.ok⟩ := by
  have hstore := syncPipeline_store_of_ok parse classify (Except.ok msgs) db h
  have hcover : ∀ msg ∈ msgs,
      storeHas (syncPipeline parse classify (Except.ok msgs) db).store msg.id
        = true := by
    intro msg hm
    rw [hstore]
    exact syncLoop_covers parse classify db msgs msg hm
  generalize (syncPipeline parse classify (Except.ok msgs) db).store = s1
    at hcover ⊢
  have hloop := syncLoop_all_dup parse2 classify2 s1 msgs hcover
  simp [syncPipeline, get_new_emails, hloop, commitOk_nil]

/-- C7 witness: a successful first run over a singleton batch, then the
same batch again: zero inserted, one skipped. -/
theorem sync_idempotent_witness :
    (syncPipeline parseNone classifyRaise (Except.ok [msgA]) []).status
      = SyncStatus.ok ∧
    syncPipeline parseNone classifyRaise (Except.ok [msgA])
        (syncPipeline parseNone classifyRaise (Except.ok [msgA]) []).store
      = ⟨(syncPipeline parseNone classifyRaise (Except.ok [msgA]) []).store,
          1, 0, 1, SyncStatus.ok⟩ :=
  ⟨rfl, sync_idempotent parseNone parseNone classifyRaise classifyRaise
      [msgA] [] rfl⟩

/-- C8.  Null-date tolerance: a non-duplicate message whose raw date is
absent, empty, or fails to parse is still ingested whenever the run
commits — a row with its identifier and a null `date_sent` is in the
store afterwards; the parse failure never blocks that message. -/
theorem null_date_still_persisted (parse : String → Option Nat)
    (classify : InboundMessage → Except String AgentReturn)
    (msgs : List InboundMessage) (db : Store) (msg : InboundMessage)
    (h1 : msg ∈ msgs)
    (h2 : storeHas db msg.id = false)
    (h3 : parsedDate parse msg = none)
    (h4 : (syncPipeline parse classify (Except.ok msgs) db).status
        = SyncStatus.ok) :
    ∃ rec ∈ (syncPipeline parse classify (Except.ok msgs) db).store,
      rec.message_id = msg.id ∧ rec.date_sent = none := by
  have hstore := syncPipeline_store_of_ok parse classify (Except.ok msgs) db h4
  refine ⟨buildRecord parse msg (aiOut (classify msg)), ?_, rfl, ?_⟩
  · rw [hstore]
    exact List.mem_append_right _
      (syncLoop_mem_pending parse classify db msgs msg h1 h2)
  · simpa [buildRecord] using h3

/-- C8 witness: the message with raw date "not-a-date" is persisted with
a null timestamp. -/
theorem null_date_still_persisted_witness :
    parsedDate parseNone msgB = none ∧
    ∃ rec ∈ (syncPipeline parseNone classifyRaise (Except.ok [msgB]) []).store,
      rec.message_id = msgB.id ∧ rec.date_sent = none :=
  ⟨rfl, null_date_still_persisted parseNone classifyRaise [msgB] [] msgB
      (List.mem_singleton.mpr rfl) rfl rfl rfl⟩

/-- C9 (counterexample).  The gateway neither clamps nor rejects
out-of-range scores: when the external call parses to importance 7 and
urgency 9, `email_agent` returns the result verbatim, and a pipeline run
persists the out-of-range composite score. -/
theorem scores_unclamped :
    email_agent (some "k") (GenaiOutcome.parsed outOfRangeResult)
        "b" "s" "" none
      = Except.ok (AgentReturn.parsedResult outOfRangeResult) ∧
    storedScoresInRange
        (syncPipeline parseNone
          (syncClassifier (some "k") (fun _ => GenaiOutcome.parsed outOfRangeResult))
          (Except.ok [msgA]) []).store
      = false :=
  ⟨rfl, rfl⟩

/-- C9 (amended).  The classify operation performs no range validation:
every parsed result of the external call is returned verbatim, so an
out-of-range integer score is handed onward for persistence; only the
deterministic fallback guarantees scores inside the 1–5 range (both 1). -/
theorem scores_passthrough (env api : Option String)
    (r : EmailAnalysisResult) (content sender ctx : String)
    (h : truthy (effectiveKey api env) = true) :
    email_agent env (GenaiOutcome.parsed r) content sender ctx api
      = Except.ok (AgentReturn.parsedResult r) ∧
    1 ≤ fallbackResult.importance_score ∧ fallbackResult.importance_score ≤ 5 ∧
    1 ≤ fallbackResult.urgency_score ∧ fallbackResult.urgency_score ≤ 5 :=
  ⟨by simp [email_agent, h], by decide, by decide, by decide, by decide⟩

/-- C9 witness: pass-through of an out-of-range parsed score with a key
present. -/
theorem scores_passthrough_witness :
    truthy (effectiveKey none (some "k")) = true ∧
    email_agent (some "k") (GenaiOutcome.parsed outOfRangeResult)
        "x" "y" "" none
      = Except.ok (AgentReturn.parsedResult outOfRangeResult) :=
  ⟨rfl, (scores_passthrough (some "k") none outOfRangeResult "x" "y" "" rfl).1⟩
